import Mathlib

/-!
Shallow embedding of the `ghurone/async-webserver` repository (two Python
files, `src/server.py` and `src/main.py`) and proofs about its
connection-handling pipeline.

Modelling conventions:
* Python strings become Lean `String`; the decoded request bytes are taken as
  the input text (`bytes.decode("utf-8", errors="replace")` is total and maps
  empty byte strings to the empty string, non-empty ones to non-empty text).
* `str.split("\r\n")[0]` is embedded as `takeUntilCRLF` (the text before the
  first occurrence of `"\r\n"`, the whole string when none occurs), and
  `str.split(" ")` as `splitOnChar ' '` (Python split semantics for a
  single-character separator: empty pieces are kept).
* A route handler (a zero-argument Python function) is modelled by the outcome
  of calling it: it returns a string, returns `None`, or raises.
* The per-connection I/O behaviour that the event loop can produce is the
  input `ReadResult`: the read times out with no data, the peer resets during
  the read, or some decoded text arrives (possibly empty, when the peer closed
  immediately).  The final `sock_sendall` is modelled as succeeding.
* The outcome of `handle_client` records the response string written to the
  socket (if any), how many times `close()` ran, and the log events emitted.
-/

/-- Result of invoking a registered zero-argument route handler:
it returns a body string, returns `None`, or raises an exception. -/
inductive HandlerResult where
  | value (body : String)
  | noneBody
  | raises
deriving DecidableEq

/-- What the initial socket read of one connection produced:
`timeout` — `asyncio.wait_for` timed out with no data;
`reset` — `ConnectionResetError` was raised during the read;
`data t` — bytes arrived and decoded (with `errors="replace"`) to `t`
(`t = ""` exactly when the peer closed immediately, sending zero bytes). -/
inductive ReadResult where
  | timeout
  | reset
  | data (request_text : String)
deriving DecidableEq

/-- Log events emitted by `handle_client` (tags for the `logging` calls in
`src/server.py`; the message text is abstracted, except the request text and
the offending path which the code interpolates). -/
inductive LogEvent where
  | warningEmptyRequest
  | infoRequest (request_text : String)
  | errorRoute (path : String)
  | warningReset
  | warningTimeout
  | errorUnexpected
deriving DecidableEq

/-- Observable outcome of handling one accepted connection: the response
string written by `sock_sendall` (if any write happened), the number of times
`client_socket.close()` ran, and the emitted log events in order. -/
structure HandleOutcome where
  sent : Option String
  closed : Nat
  logs : List LogEvent
deriving DecidableEq

/-- `GhuServer.HTTP_STATUS` (src/server.py lines 15-20): the status-code to
reason-phrase dictionary. -/
def HTTP_STATUS : List (Nat × String) :=
  [(200, "OK"), (400, "Bad Request"), (404, "Not Found"),
   (500, "Internal Server Error")]

/-- `GhuServer._build_response` (src/server.py lines 58-72): status line,
`Content-Type` and `Connection: close` headers, blank line, then the body.
`self.HTTP_STATUS.get(status_code, "Unknown")` is the dictionary lookup with
default. -/
def build_response (status_code : Nat) (body : String)
    (content_type : String := "text/html; charset=utf-8") : String :=
  let status_text := (HTTP_STATUS.lookup status_code).getD "Unknown"
  let response_status := "HTTP/1.1 " ++ toString status_code ++ " " ++ status_text ++ "\r\n"
  let response_headers :=
    response_status ++
    "Content-Type: " ++ content_type ++ "\r\n" ++
    "Connection: close" ++ "\r\n" ++
    "\r\n"
  response_headers ++ body

/-- Characters of a string up to (excluding) the first occurrence of
`"\r\n"`; the whole string when no occurrence exists.  This is exactly
Python's `s.split("\r\n")[0]`. -/
def takeUntilCRLF : List Char → List Char
  | [] => []
  | [c] => [c]
  | c1 :: c2 :: rest =>
      if c1 = '\r' ∧ c2 = '\n' then []
      else c1 :: takeUntilCRLF (c2 :: rest)

/-- Python's `s.split(sep)` for a one-character separator `sep`: split at
every occurrence, keeping empty pieces; the result is never empty. -/
def splitOnChar (sep : Char) : List Char → List (List Char)
  | [] => [[]]
  | c :: rest =>
      if c = sep then [] :: splitOnChar sep rest
      else
        match splitOnChar sep rest with
        | [] => [[c]]
        | t :: ts => (c :: t) :: ts

/-- `request_line = request_text.split("\r\n")[0]` (src/server.py line 95). -/
def request_line_of (request_text : String) : String :=
  String.mk (takeUntilCRLF request_text.data)

/-- `parts = request_line.split(" ")` (src/server.py line 96). -/
def parts_of (request_line : String) : List String :=
  (splitOnChar ' ' request_line.data).map String.mk

/-- Characters strictly after the first occurrence of `"\r\n\r\n"`; `[]` when
no occurrence exists. -/
def dropAfterBlank : List Char → List Char
  | [] => []
  | '\r' :: '\n' :: '\r' :: '\n' :: rest => rest
  | _ :: rest => dropAfterBlank rest

/-- The body of a framed response: the text following the blank line that
terminates the headers. -/
def body_after_headers (response : String) : String :=
  String.mk (dropAfterBlank response.data)

/-- The route table `self.routes` as consulted by `self.routes.get(path)`
(src/server.py line 101): a partial map from exact path strings to the
behaviour of the registered handler. -/
def Routes : Type := String → Option HandlerResult

/-- `GhuServer.handle_client` (src/server.py lines 74-124).

Control-flow notes traced from the source:
* On a read timeout, `suppress(asyncio.TimeoutError)` (lines 82-86) swallows
  the exception raised by `asyncio.wait_for`, so the local `request_data` is
  never assigned; the truthiness test `if not request_data:` on line 88 then
  raises `UnboundLocalError`, which is caught by the generic
  `except Exception` on line 121 and logged at error severity.  The dedicated
  `except asyncio.TimeoutError` branch on lines 119-120 is unreachable for
  the read timeout.
* `ConnectionResetError` during the read is caught on line 117 and logged as
  a warning.
* Empty bytes (peer closed immediately) log a warning and return without
  sending (lines 88-90).
* The `finally` block (lines 123-124) closes the socket exactly once on every
  path.
* The final `sock_sendall` (line 115) is modelled as succeeding. -/
def handle_client (routes : Routes) (read : ReadResult) : HandleOutcome :=
  match read with
  | ReadResult.timeout =>
      { sent := none, closed := 1, logs := [LogEvent.errorUnexpected] }
  | ReadResult.reset =>
      { sent := none, closed := 1, logs := [LogEvent.warningReset] }
  | ReadResult.data request_text =>
      if request_text = "" then
        { sent := none, closed := 1, logs := [LogEvent.warningEmptyRequest] }
      else
        let request_line := request_line_of request_text
        let parts := parts_of request_line
        if parts.length < 2 then
          { sent := some (build_response 400 "<h1>400 Bad Request</h1>"),
            closed := 1, logs := [LogEvent.infoRequest request_text] }
        else
          let path := parts.getD 1 ""
          match routes path with
          | none =>
              { sent := some (build_response 404 "<h1>404 Not Found</h1>"),
                closed := 1, logs := [LogEvent.infoRequest request_text] }
          | some (HandlerResult.value body) =>
              { sent := some (build_response 200 body),
                closed := 1, logs := [LogEvent.infoRequest request_text] }
          | some HandlerResult.noneBody =>
              { sent := some (build_response 404 "<h1>404 Not Found</h1>"),
                closed := 1, logs := [LogEvent.infoRequest request_text] }
          | some HandlerResult.raises =>
              { sent := some (build_response 500 "<h1>500 Internal Server Error</h1>"),
                closed := 1,
                logs := [LogEvent.infoRequest request_text,
                         LogEvent.errorRoute path] }

/-- `GhuServer.run_server` (src/server.py lines 126-142) at the level of
completed per-connection outcomes: the accept loop handles every accepted
connection with an independent `handle_client` task; the list abstracts the
stream of accepted connections (each paired with what its read produced). -/
def run_server (routes : Routes) (conns : List ReadResult) : List HandleOutcome :=
  conns.map (handle_client routes)

/-- The fixed triple-quoted response body of `src/main.py` lines 41-49. -/
def main_response_body : String :=
  "\n        <html>\n        <head><title>Hello World!</title></head>\n        <body>\n            <h1>Ghu is ALIVE!</h1>\n            <p>This is an example HTML response from an asyncio server.</p>\n        </body>\n        </html>\n        "

/-- The fixed response string of `src/main.py` lines 51-57 (note the
`Content-Type: text/html` header, with no charset parameter). -/
def main_response : String :=
  "HTTP/1.1 200 OK\r\n" ++
  "Content-Type: text/html\r\n" ++
  "Connection: close\r\n" ++
  "\r\n" ++
  main_response_body

/-- `handle_client` of `src/main.py` (lines 17-69).

Control-flow notes traced from the source: the emptiness check and the
request logging (lines 34-38) sit *inside* the `with suppress` block, so a
read timeout skips them and execution falls through to building and sending
the fixed response; only an empty read (`return` on line 36) or a
`ConnectionResetError` prevents the send.  The `finally` block closes the
socket exactly once on every path. -/
def main_handle_client (read : ReadResult) : HandleOutcome :=
  match read with
  | ReadResult.timeout =>
      { sent := some main_response, closed := 1, logs := [] }
  | ReadResult.reset =>
      { sent := none, closed := 1, logs := [LogEvent.warningReset] }
  | ReadResult.data request_text =>
      if request_text = "" then
        { sent := none, closed := 1, logs := [LogEvent.warningEmptyRequest] }
      else
        { sent := some main_response, closed := 1,
          logs := [LogEvent.infoRequest request_text] }

/-- A route table whose lookup always yields the fixed body served by
`src/main.py` (used to compare the two server variants). -/
def fixedHelloRoutes : Routes :=
  fun _ => some (HandlerResult.value main_response_body)

/-- The route-dispatch part of `handle_client` (src/server.py lines 101-113):
the response chosen once a path token has been extracted. -/
def after_parse (routes : Routes) (path : String) : String :=
  match routes path with
  | none => build_response 404 "<h1>404 Not Found</h1>"
  | some (HandlerResult.value body) => build_response 200 body
  | some HandlerResult.noneBody => build_response 404 "<h1>404 Not Found</h1>"
  | some HandlerResult.raises => build_response 500 "<h1>500 Internal Server Error</h1>"

/-- The reason-phrase table as the specification states it: `"OK"` for 200,
`"Bad Request"` for 400, `"Not Found"` for 404, `"Internal Server Error"` for
500, `"Unknown"` for every other code (to be compared with the dictionary
lookup performed by `build_response`). -/
def reason_of (code : Nat) : String :=
  if code = 200 then "OK"
  else if code = 400 then "Bad Request"
  else if code = 404 then "Not Found"
  else if code = 500 then "Internal Server Error"
  else "Unknown"

/-- A sample route table for concrete instantiations: the `/hello` route of
the reference deployment (src/server.py lines 162-164), one route whose
handler returns `None` and one whose handler raises. -/
def sampleRoutes : Routes := fun p =>
  if p = "/hello" then
    some (HandlerResult.value "<h1>Hello World!</h1><p>HEHEHE It\x27s works!!!</p>")
  else if p = "/none" then some HandlerResult.noneBody
  else if p = "/boom" then some HandlerResult.raises
  else none

/-- A route table containing a path with a space in it (dictionary keys may
be arbitrary strings). -/
def spaceRoutes : Routes := fun p =>
  if p = "a b" then some (HandlerResult.value "X") else none

/-! ### Helper lemmas about the embedded split functions -/

theorem takeUntilCRLF_append (a b : List Char) (h : '\r' ∉ a) :
    takeUntilCRLF (a ++ b) = a ++ takeUntilCRLF b := by
  induction a with
  | nil => rfl
  | cons c a ih =>
    simp only [List.mem_cons, not_or] at h
    obtain ⟨hc, ha⟩ := h
    rcases hab : a ++ b with _ | ⟨d, l⟩
    · rcases List.append_eq_nil.mp hab with ⟨rfl, rfl⟩
      rfl
    · rw [List.cons_append, hab, takeUntilCRLF,
        if_neg (fun hh : c = '\r' ∧ d = '\n' => hc hh.1.symm), ← hab, ih ha,
        List.cons_append]

theorem splitOnChar_append (sep : Char) (a b : List Char) (h : sep ∉ a) :
    splitOnChar sep (a ++ sep :: b) = a :: splitOnChar sep b := by
  induction a with
  | nil => simp [splitOnChar]
  | cons c a ih =>
    simp only [List.mem_cons, not_or] at h
    obtain ⟨hc, ha⟩ := h
    rw [List.cons_append, splitOnChar, if_neg (fun hh : c = sep => hc hh.symm),
      ih ha]

theorem splitOnChar_eq_single (sep : Char) (a : List Char) (h : sep ∉ a) :
    splitOnChar sep a = [a] := by
  induction a with
  | nil => rfl
  | cons c a ih =>
    simp only [List.mem_cons, not_or] at h
    obtain ⟨hc, ha⟩ := h
    rw [splitOnChar, if_neg (fun hh : c = sep => hc hh.symm), ih ha]

theorem splitOnChar_ne_nil (sep : Char) (l : List Char) :
    splitOnChar sep l ≠ [] := by
  induction l with
  | nil => simp [splitOnChar]
  | cons c rest ih =>
    rw [splitOnChar]
    by_cases hc : c = sep
    · simp [hc]
    · rw [if_neg hc]
      rcases hsp : splitOnChar sep rest with _ | ⟨t, ts⟩
      · simp
      · simp

theorem two_le_splitOnChar_length (sep : Char) (l : List Char) (h : sep ∈ l) :
    2 ≤ (splitOnChar sep l).length := by
  induction l with
  | nil => cases h
  | cons c rest ih =>
    rw [splitOnChar]
    by_cases hc : c = sep
    · rw [if_pos hc]
      have h1 : splitOnChar sep rest ≠ [] := splitOnChar_ne_nil sep rest
      have h2 : 1 ≤ (splitOnChar sep rest).length := by
        cases hsp : splitOnChar sep rest with
        | nil => exact absurd hsp h1
        | cons t ts => simp
      simpa using Nat.succ_le_succ h2
    · rw [if_neg hc]
      have hm : sep ∈ rest := by
        rcases List.mem_cons.mp h with h1 | h2
        · exact absurd h1.symm hc
        · exact h2
      rcases hsp : splitOnChar sep rest with _ | ⟨t, ts⟩
      · exact absurd hsp (splitOnChar_ne_nil sep rest)
      · have h3 := ih hm
        rw [hsp] at h3
        simpa using h3

theorem splitOnChar_length_lt_two (sep : Char) (l : List Char) :
    (splitOnChar sep l).length < 2 ↔ sep ∉ l := by
  constructor
  · intro hlen hmem
    exact absurd (two_le_splitOnChar_length sep l hmem) (Nat.not_le.mpr hlen)
  · intro h
    rw [splitOnChar_eq_single sep l h]
    simp

theorem handle_client_data_sent (routes : Routes) (t : String) (ht : ¬ t = "") :
    (handle_client routes (ReadResult.data t)).sent =
      some (if (parts_of (request_line_of t)).length < 2
            then build_response 400 "<h1>400 Bad Request</h1>"
            else after_parse routes ((parts_of (request_line_of t)).getD 1 "")) := by
  by_cases hlen : (parts_of (request_line_of t)).length < 2
  · simp [handle_client, ht, hlen]
  · simp only [handle_client, if_neg ht, if_neg hlen,
      ← List.getD_eq_getElem?_getD]
    cases hr : routes ((parts_of (request_line_of t)).getD 1 "") with
    | none => rw [after_parse, hr]
    | some h => cases h <;> rw [after_parse, hr]

theorem handle_client_closed (routes : Routes) (read : ReadResult) :
    (handle_client routes read).closed = 1 := by
  cases read with
  | timeout => rfl
  | reset => rfl
  | data t =>
    by_cases ht : t = ""
    · simp [handle_client, ht]
    · by_cases hlen : (parts_of (request_line_of t)).length < 2
      · simp [handle_client, ht, hlen]
      · simp only [handle_client, if_neg ht, if_neg hlen]
        cases hr : routes ((parts_of (request_line_of t)).getD 1 "") with
        | none => simp
        | some h => cases h <;> simp

theorem parts_of_method (m rest : String) (hr : '\r' ∉ m.data)
    (hs : ' ' ∉ m.data) :
    parts_of (request_line_of (m ++ " " ++ rest)) =
      String.mk m.data ::
        (splitOnChar ' ' (takeUntilCRLF rest.data)).map String.mk := by
  have hdata : (m ++ " " ++ rest).data = m.data ++ (' ' :: rest.data) := by
    show (m.data ++ [' ']) ++ rest.data = _
    rw [List.append_assoc]
    rfl
  have hsp : takeUntilCRLF (' ' :: rest.data) = ' ' :: takeUntilCRLF rest.data := by
    simpa using takeUntilCRLF_append [' '] rest.data (by decide)
  rw [request_line_of, hdata, takeUntilCRLF_append _ _ hr, hsp, parts_of]
  rw [show (String.mk (m.data ++ ' ' :: takeUntilCRLF rest.data)).data
        = m.data ++ ' ' :: takeUntilCRLF rest.data from rfl]
  rw [splitOnChar_append _ _ _ hs]
  simp

/-! ### Claim theorems -/

/-- C1 counterexample: the claim as stated fails on the timeout-with-no-data
path — no response at all is sent there (while the connection is still closed
exactly once), so it is not the case that exactly one response is sent per
accepted connection on every listed code path. -/
theorem C1_counterexample :
    (handle_client (fun _ => none) ReadResult.timeout).sent = none
    ∧ (handle_client (fun _ => none) ReadResult.timeout).closed = 1 :=
  ⟨rfl, rfl⟩

/-- C1 (amended): the connection is closed exactly once on every code path,
and at most one response is sent — exactly one when the read produced a
non-empty request (success, parse failure, missing route, handler exception),
and none when the read timed out with no data, read zero bytes, or the peer
reset. -/
theorem C1_one_close_at_most_one_send (routes : Routes) (read : ReadResult) :
    (handle_client routes read).closed = 1
    ∧ ((handle_client routes read).sent ≠ none ↔
        ∃ t, read = ReadResult.data t ∧ ¬ t = "") := by
  refine ⟨handle_client_closed routes read, ?_⟩
  cases read with
  | timeout => simp [handle_client]
  | reset => simp [handle_client]
  | data t =>
    by_cases ht : t = ""
    · subst ht
      simp [handle_client]
    · rw [handle_client_data_sent routes t ht]
      simp [ht]

/-- C3: for every status code, body and content type, the response builder
returns exactly the status line with the claimed reason phrase, the
`Content-Type` and `Connection: close` headers, a blank line, and then the
body verbatim; the default content type is `text/html; charset=utf-8`. -/
theorem C3_response_format (c : Nat) (b ct : String) :
    build_response c b ct =
      "HTTP/1.1 " ++ toString c ++ " " ++ reason_of c ++ "\r\n" ++
      "Content-Type: " ++ ct ++ "\r\n" ++ "Connection: close" ++ "\r\n" ++
      "\r\n" ++ b
    ∧ build_response c b = build_response c b "text/html; charset=utf-8" := by
  refine ⟨?_, rfl⟩
  have hl : (HTTP_STATUS.lookup c).getD "Unknown" = reason_of c := by
    by_cases h200 : c = 200
    · subst h200; decide
    · by_cases h400 : c = 400
      · subst h400; decide
      · by_cases h404 : c = 404
        · subst h404; decide
        · by_cases h500 : c = 500
          · subst h500; decide
          · have b200 : (c == 200) = false := beq_eq_false_iff_ne.mpr h200
            have b400 : (c == 400) = false := beq_eq_false_iff_ne.mpr h400
            have b404 : (c == 404) = false := beq_eq_false_iff_ne.mpr h404
            have b500 : (c == 500) = false := beq_eq_false_iff_ne.mpr h500
            simp [HTTP_STATUS, List.lookup, b200, b400, b404, b500,
              reason_of, h200, h400, h404, h500]
  simp only [build_response]
  rw [hl]

/-- C5: a received request whose request line splits into fewer than two
space-separated tokens draws the 400 response with the minimal error body,
and the whole outcome is independent of the route table — no route lookup and
no handler invocation can influence it. -/
theorem C5_bad_request (routes routes2 : Routes) (t : String) (ht : ¬ t = "")
    (hlen : (parts_of (request_line_of t)).length < 2) :
    (handle_client routes (ReadResult.data t)).sent
      = some (build_response 400 "<h1>400 Bad Request</h1>")
    ∧ handle_client routes (ReadResult.data t)
      = handle_client routes2 (ReadResult.data t) := by
  constructor
  · rw [handle_client_data_sent routes t ht, if_pos hlen]
  · simp only [handle_client, if_neg ht, if_pos hlen]

/-- C5 witness: the one-token request `GET` evaluated against two different
route tables. -/
theorem C5_bad_request_witness :
    (handle_client sampleRoutes (ReadResult.data "GET\r\n\r\n")).sent
      = some (build_response 400 "<h1>400 Bad Request</h1>")
    ∧ handle_client sampleRoutes (ReadResult.data "GET\r\n\r\n")
      = handle_client (fun _ => none) (ReadResult.data "GET\r\n\r\n") :=
  C5_bad_request sampleRoutes (fun _ => none) "GET\r\n\r\n" (by decide) (by decide)

/-- C7 (code-bug evidence): on a read timeout with zero bytes received the
connection is closed exactly once with no response bytes written — but the
condition is handled by the generic `except Exception` branch and logged as
an unexpected error (the suppressed `asyncio.TimeoutError` leaves
`request_data` unassigned, so the truthiness test raises
`UnboundLocalError`), not by the dedicated timeout-warning branch, which is
unreachable. -/
theorem C7_timeout_closes_without_response (routes : Routes) :
    handle_client routes ReadResult.timeout
      = { sent := none, closed := 1, logs := [LogEvent.errorUnexpected] } :=
  rfl

/-- C4: a request whose parsed path token is not a key of the route table
draws the 404 response, and a registered path whose handler returns `None`
draws the byte-for-byte identical 404 response — the same status and the same
minimal body. -/
theorem C4_unmatched_and_none_equivalent (routes : Routes) (t : String)
    (ht : ¬ t = "") (hlen : ¬ (parts_of (request_line_of t)).length < 2) :
    (routes ((parts_of (request_line_of t)).getD 1 "") = none →
      (handle_client routes (ReadResult.data t)).sent
        = some (build_response 404 "<h1>404 Not Found</h1>"))
    ∧ (routes ((parts_of (request_line_of t)).getD 1 "") = some HandlerResult.noneBody →
      (handle_client routes (ReadResult.data t)).sent
        = some (build_response 404 "<h1>404 Not Found</h1>")) := by
  constructor <;> intro hr <;>
    rw [handle_client_data_sent routes t ht, if_neg hlen, after_parse, hr]

/-- C4 witness: the unregistered path `/missing` and the registered `/none`
route (whose handler returns `None`) receive the same 404 response. -/
theorem C4_witness :
    (handle_client sampleRoutes (ReadResult.data "GET /missing HTTP/1.1\r\n\r\n")).sent
      = some (build_response 404 "<h1>404 Not Found</h1>")
    ∧ (handle_client sampleRoutes (ReadResult.data "GET /none HTTP/1.1\r\n\r\n")).sent
      = some (build_response 404 "<h1>404 Not Found</h1>") :=
  ⟨(C4_unmatched_and_none_equivalent sampleRoutes "GET /missing HTTP/1.1\r\n\r\n"
      (by decide) (by decide)).1 (by decide),
   (C4_unmatched_and_none_equivalent sampleRoutes "GET /none HTTP/1.1\r\n\r\n"
      (by decide) (by decide)).2 (by decide)⟩

/-- C6: a registered handler that raises yields the 500 response with the
minimal error body; the connection handler completes normally (closing the
connection exactly once), and the accept loop processes every subsequent
connection exactly as it would have done without the failure. -/
theorem C6_handler_exception_isolated (routes : Routes) (t : String)
    (rest : List ReadResult) (ht : ¬ t = "")
    (hlen : ¬ (parts_of (request_line_of t)).length < 2)
    (hr : routes ((parts_of (request_line_of t)).getD 1 "")
            = some HandlerResult.raises) :
    (handle_client routes (ReadResult.data t)).sent
      = some (build_response 500 "<h1>500 Internal Server Error</h1>")
    ∧ (handle_client routes (ReadResult.data t)).closed = 1
    ∧ run_server routes (ReadResult.data t :: rest)
        = handle_client routes (ReadResult.data t) :: run_server routes rest := by
  refine ⟨?_, handle_client_closed routes _, rfl⟩
  rw [handle_client_data_sent routes t ht, if_neg hlen, after_parse, hr]

/-- C6 witness: the raising `/boom` route followed by a further connection. -/
theorem C6_witness :
    (handle_client sampleRoutes (ReadResult.data "GET /boom HTTP/1.1\r\n\r\n")).sent
      = some (build_response 500 "<h1>500 Internal Server Error</h1>")
    ∧ (handle_client sampleRoutes (ReadResult.data "GET /boom HTTP/1.1\r\n\r\n")).closed = 1
    ∧ run_server sampleRoutes
        (ReadResult.data "GET /boom HTTP/1.1\r\n\r\n"
          :: [ReadResult.data "GET /hello HTTP/1.1\r\n\r\n"])
      = handle_client sampleRoutes (ReadResult.data "GET /boom HTTP/1.1\r\n\r\n")
          :: run_server sampleRoutes [ReadResult.data "GET /hello HTTP/1.1\r\n\r\n"] :=
  C6_handler_exception_isolated sampleRoutes "GET /boom HTTP/1.1\r\n\r\n"
    [ReadResult.data "GET /hello HTTP/1.1\r\n\r\n"]
    (by decide) (by decide) (by decide)

/-- C9: two received requests that differ only in the method token of the
request line (same path token, same remaining bytes) draw identical response
bytes — the method is never inspected beyond tokenization. -/
theorem C9_method_not_inspected (routes : Routes) (m1 m2 rest : String)
    (h1r : '\r' ∉ m1.data) (h1s : ' ' ∉ m1.data)
    (h2r : '\r' ∉ m2.data) (h2s : ' ' ∉ m2.data) :
    (handle_client routes (ReadResult.data (m1 ++ " " ++ rest))).sent
      = (handle_client routes (ReadResult.data (m2 ++ " " ++ rest))).sent := by
  have key : ∀ m : String, '\r' ∉ m.data → ' ' ∉ m.data →
      (handle_client routes (ReadResult.data (m ++ " " ++ rest))).sent
        = some
            (if ((splitOnChar ' ' (takeUntilCRLF rest.data)).map String.mk).length < 1
             then build_response 400 "<h1>400 Bad Request</h1>"
             else after_parse routes
               (((splitOnChar ' ' (takeUntilCRLF rest.data)).map String.mk).getD 0 "")) := by
    intro m hmr hms
    have hdata : (m ++ " " ++ rest).data = m.data ++ (' ' :: rest.data) := by
      show (m.data ++ [' ']) ++ rest.data = _
      rw [List.append_assoc]
      rfl
    have hne : ¬ (m ++ " " ++ rest) = "" := by
      intro hh
      have h0 := congrArg String.data hh
      rw [hdata] at h0
      exact absurd h0 (by simp)
    rw [handle_client_data_sent routes _ hne, parts_of_method m rest hmr hms]
    simp only [List.length_cons, Nat.succ_lt_succ_iff, List.getD_cons_succ]
  rw [key m1 h1r h1s, key m2 h2r h2s]

/-- C9 witness: `GET` and `DELETE` requests for `/hello` draw the same
response bytes. -/
theorem C9_witness :
    (handle_client sampleRoutes
        (ReadResult.data ("GET" ++ " " ++ "/hello HTTP/1.1\r\n\r\n"))).sent
      = (handle_client sampleRoutes
        (ReadResult.data ("DELETE" ++ " " ++ "/hello HTTP/1.1\r\n\r\n"))).sent :=
  C9_method_not_inspected sampleRoutes "GET" "DELETE" "/hello HTTP/1.1\r\n\r\n"
    (by decide) (by decide) (by decide) (by decide)

/-- C10: the 400 branch condition — fewer than two space-separated tokens —
holds exactly when the first CRLF-terminated line of the decoded request
contains no space character, and in that case the 400 response is sent; the
request line `GET ` (trailing space) splits into two tokens with the empty
string as the path, so (no empty-path route being registered) it draws the
404 response, not the 400 one. -/
theorem C10_no_space_iff_400 (routes : Routes) (t : String) (ht : ¬ t = "")
    (h0 : routes "" = none) :
    ((parts_of (request_line_of t)).length < 2
      ↔ ¬ ' ' ∈ (request_line_of t).data)
    ∧ (¬ ' ' ∈ (request_line_of t).data →
        (handle_client routes (ReadResult.data t)).sent
          = some (build_response 400 "<h1>400 Bad Request</h1>"))
    ∧ (handle_client routes (ReadResult.data "GET \r\n\r\n")).sent
        = some (build_response 404 "<h1>404 Not Found</h1>") := by
  have hiff : (parts_of (request_line_of t)).length < 2
      ↔ ¬ ' ' ∈ (request_line_of t).data := by
    rw [parts_of, List.length_map]
    exact splitOnChar_length_lt_two ' ' (request_line_of t).data
  refine ⟨hiff, ?_, ?_⟩
  · intro hsp
    rw [handle_client_data_sent routes t ht, if_pos (hiff.mpr hsp)]
  · rw [handle_client_data_sent routes _ (by decide)]
    rw [show parts_of (request_line_of "GET \r\n\r\n") = ["GET", ""] from by decide]
    rw [if_neg (by decide), after_parse]
    rw [show ((["GET", ""].getD 1 "") : String) = "" from rfl, h0]

/-- C10 witness: a request with a space in its request line against the
sample route table (which registers no empty path). -/
theorem C10_witness :
    ((parts_of (request_line_of "GET /hello HTTP/1.1\r\n\r\n")).length < 2
      ↔ ¬ ' ' ∈ (request_line_of "GET /hello HTTP/1.1\r\n\r\n").data)
    ∧ (¬ ' ' ∈ (request_line_of "GET /hello HTTP/1.1\r\n\r\n").data →
        (handle_client sampleRoutes (ReadResult.data "GET /hello HTTP/1.1\r\n\r\n")).sent
          = some (build_response 400 "<h1>400 Bad Request</h1>"))
    ∧ (handle_client sampleRoutes (ReadResult.data "GET \r\n\r\n")).sent
        = some (build_response 404 "<h1>404 Not Found</h1>") :=
  C10_no_space_iff_400 sampleRoutes "GET /hello HTTP/1.1\r\n\r\n"
    (by decide) (by decide)

/-- C2 counterexample: the claim as stated fails for a registered path that
contains a space — with `"a b"` registered to a handler returning the
non-empty body `"X"`, the request whose request line is `GET a b HTTP/1.1`
tokenizes to path `a`, so the server answers 404, not a 200 response carrying
body `X`. -/
theorem C2_counterexample :
    spaceRoutes "a b" = some (HandlerResult.value "X")
    ∧ ¬ ("X" : String) = ""
    ∧ request_line_of "GET a b HTTP/1.1\r\n\r\n" = "GET " ++ "a b" ++ " HTTP/1.1"
    ∧ ¬ (handle_client spaceRoutes (ReadResult.data "GET a b HTTP/1.1\r\n\r\n")).sent
        = some ("HTTP/1.1 200 OK\r\nContent-Type: text/html; charset=utf-8\r\nConnection: close\r\n\r\n" ++ "X")
    ∧ (handle_client spaceRoutes (ReadResult.data "GET a b HTTP/1.1\r\n\r\n")).sent
        = some (build_response 404 "<h1>404 Not Found</h1>") :=
  ⟨rfl, by decide, by decide, by decide, by decide⟩

/-- C2 (amended): for every path P *containing no space character* that is
registered with a handler returning a non-empty body B, handling a request
whose request line is `GET P HTTP/1.1` produces a response that is exactly
the `HTTP/1.1 200 OK` status line, the fixed headers and the blank line
followed verbatim by B — in particular the text following the
header-terminating blank line equals B. -/
theorem C2_registered_path_200 (routes : Routes) (P B t : String)
    (hreg : routes P = some (HandlerResult.value B)) (hB : ¬ B = "")
    (hsp : ' ' ∉ P.data)
    (hline : request_line_of t = "GET " ++ P ++ " HTTP/1.1") :
    (handle_client routes (ReadResult.data t)).sent
      = some ("HTTP/1.1 200 OK\r\nContent-Type: text/html; charset=utf-8\r\nConnection: close\r\n\r\n" ++ B)
    ∧ body_after_headers
        (((handle_client routes (ReadResult.data t)).sent).getD "") = B := by
  have ht : ¬ t = "" := by
    intro hh
    rw [hh] at hline
    have h0 : ([] : List Char) = ("GET " ++ P ++ " HTTP/1.1").data :=
      congrArg String.data hline
    rw [show ("GET " ++ P ++ " HTTP/1.1").data
          = 'G' :: (['E', 'T', ' '] ++ (P.data ++ " HTTP/1.1".data)) from rfl] at h0
    exact List.noConfusion h0
  have hparts : parts_of (request_line_of t) = ["GET", P, "HTTP/1.1"] := by
    rw [hline, parts_of]
    rw [show ("GET " ++ P ++ " HTTP/1.1").data
          = ['G', 'E', 'T'] ++ (' ' :: (P.data ++ (' ' :: "HTTP/1.1".data))) from rfl]
    rw [splitOnChar_append ' ' ['G', 'E', 'T'] _ (by decide)]
    rw [splitOnChar_append ' ' P.data _ hsp]
    rw [splitOnChar_eq_single ' ' _ (by decide)]
    rfl
  have hsent : (handle_client routes (ReadResult.data t)).sent
      = some (build_response 200 B) := by
    rw [handle_client_data_sent routes t ht, hparts]
    rw [if_neg (by simp), after_parse]
    rw [show ((["GET", P, "HTTP/1.1"].getD 1 "") : String) = P from rfl, hreg]
  refine ⟨?_, ?_⟩
  · rw [hsent]
    rfl
  · rw [hsent]
    rfl

/-- C2 witness: the `/hello` route deployed in src/server.py lines 162-164. -/
theorem C2_witness :
    (handle_client sampleRoutes (ReadResult.data "GET /hello HTTP/1.1\r\n\r\n")).sent
      = some ("HTTP/1.1 200 OK\r\nContent-Type: text/html; charset=utf-8\r\nConnection: close\r\n\r\n"
          ++ "<h1>Hello World!</h1><p>HEHEHE It\x27s works!!!</p>")
    ∧ body_after_headers
        (((handle_client sampleRoutes
            (ReadResult.data "GET /hello HTTP/1.1\r\n\r\n")).sent).getD "")
      = "<h1>Hello World!</h1><p>HEHEHE It\x27s works!!!</p>" :=
  C2_registered_path_200 sampleRoutes "/hello"
    "<h1>Hello World!</h1><p>HEHEHE It\x27s works!!!</p>"
    "GET /hello HTTP/1.1\r\n\r\n" (by decide) (by decide) (by decide) (by decide)

/-- C8 counterexample: with the route table that always serves main.py's
fixed body, the two variants already disagree on a timeout-with-no-data
connection — src/server.py sends nothing, while src/main.py still sends its
full fixed response — so main.py is not behaviourally subsumed on every
input. -/
theorem C8_counterexample :
    ¬ (handle_client fixedHelloRoutes ReadResult.timeout).sent
        = (main_handle_client ReadResult.timeout).sent := by
  decide

/-- C8 (amended): both variants close the connection exactly once on every
input, but main.py is not byte-for-byte subsumed by server.py even with a
route table always yielding main.py's fixed body: the Content-Type headers
differ on a well-formed request, and on a timeout with no data or a one-token
request line main.py still sends its fixed 200 response while server.py sends
nothing, respectively a 400 response. -/
theorem C8_not_subsumed :
    (∀ read : ReadResult,
      (handle_client fixedHelloRoutes read).closed = 1
      ∧ (main_handle_client read).closed = 1)
    ∧ ¬ (handle_client fixedHelloRoutes (ReadResult.data "GET / HTTP/1.1\r\n\r\n")).sent
        = (main_handle_client (ReadResult.data "GET / HTTP/1.1\r\n\r\n")).sent
    ∧ (main_handle_client ReadResult.timeout).sent = some main_response
    ∧ (handle_client fixedHelloRoutes ReadResult.timeout).sent = none
    ∧ (handle_client fixedHelloRoutes (ReadResult.data "GET\r\n\r\n")).sent
        = some (build_response 400 "<h1>400 Bad Request</h1>")
    ∧ (main_handle_client (ReadResult.data "GET\r\n\r\n")).sent = some main_response := by
  refine ⟨?_, by decide, rfl, rfl, by decide, rfl⟩
  intro read
  refine ⟨handle_client_closed fixedHelloRoutes read, ?_⟩
  cases read with
  | timeout => rfl
  | reset => rfl
  | data t =>
    by_cases ht : t = "" <;> simp [main_handle_client, ht]
